import Mathlib

/-
Shallow embedding of atomate/qchem/firetasks/run_calc.py (module
src/atomate/qchem/firetasks/run_calc.py of the repository).

The module defines four firetasks: RunQChemDirect, RunQChemCustodian,
RunNoQChem and RunQChemFake.  A firetask is a dict of configuration
values with a run_task method; here a task is a Lean function from its
configuration (and the pieces of outside state it reads) to an Except
value: a Python exception becomes Except.error, normal completion
becomes Except.ok carrying what the task handed to the outside world.

External semantics used by the embedding, with the conventions they are
modelled under:
- fireworks FiretaskBase is a dict subclass: self.get(k, d) yields the
  stored value or the default d, while bracket access self[k] raises
  KeyError when k is absent (FiretaskBase never sets a default factory).
  A configuration record is a structure with one Option field per
  optional parameter (none = key absent).
- numpy.testing.assert_equal and assert_allclose raise AssertionError on
  mismatch; assert_allclose checks, elementwise,
  abs (actual - desired) <= atol + rtol * abs (desired) with the numpy
  default rtol = 1e-7 and, at the call in this module, atol = 1e-4.
  Coordinates are modelled as rationals.
- Python dict iteration runs over the keys in order; d.get(k) yields
  None for an absent key.  A dict is modelled as an association list
  with unique keys; values are modelled as strings (the checks in this
  module only compare them for equality).
- Calling .get on None (a missing option block of a parsed input)
  raises AttributeError.
-/

namespace AtomateRunCalc

/- Python exceptions that the modelled code can raise. -/
inductive PyError where
  | keyError (key : String)
  | valueError (msg : String)
  | assertionError
  | attributeError
  | isADirectoryError
  | ioError
deriving DecidableEq, Repr

/- A configuration value that supports the override lookup: either a
literal, or a reference that is resolved from the process wide store. -/
inductive EnvVal where
  | lit (s : String)
  | ref (key : String)
deriving DecidableEq, Repr

/- The process wide environment store (the _fw_env part of fw_spec). -/
abbrev FwEnv := String → Option String

/-- Modelled from the spec: env_chk lives in atomate.utils.utils, which is
not under src/.  Per the spec, named configuration keys may be resolved
from a process-wide configuration source instead of the literal value
supplied ("Override lookup: indirection resolving a configuration value
from a shared environment store instead of a literal").  An absent value
stays absent, a literal passes through, a reference resolves from the
store. -/
def env_chk (val : Option EnvVal) (env : FwEnv) : Option String :=
  match val with
  | none => none
  | some (EnvVal.lit s) => some s
  | some (EnvVal.ref k) => env k

/- The configuration record of RunQChemCustodian: the required parameter
qchem_cmd and the optional parameters, in the order of the docstring and
of optional_params (run_calc.py lines 93 to 114).  none means the key is
absent from the record. -/
structure QCConfig where
  qchem_cmd : EnvVal
  multimode : Option EnvVal
  input_file : Option String
  output_file : Option String
  max_cores : Option EnvVal
  qclog_file : Option String
  suffix : Option String
  calc_loc : Option String
  nboexe : Option String
  save_scratch : Option Bool
  max_errors : Option Nat
  job_type : Option String
  handler_group : Option String
  gzipped_output : Option Bool
  backup : Option Bool
  linked : Option Bool
  max_iterations : Option Nat
  max_molecule_perturb_scale : Option ℚ
  freq_before_opt : Option Bool
  transition_state : Option Bool
deriving DecidableEq

/- The local variables that run_task resolves from the record in its
initial block (run_calc.py lines 119 to 144). -/
structure Settings where
  qchem_cmd : Option String
  multimode : String
  input_file : String
  output_file : String
  max_cores : Option String
  qclog_file : String
  suffix : String
  calc_loc : Option String
  nboexe : Option String
  save_scratch : Bool
  max_errors : Nat
  max_iterations : Nat
  linked : Bool
  backup : Bool
  max_molecule_perturb_scale : ℚ
  job_type : String
  gzipped_output : Bool
  transition_state : Bool
  freq_before_opt : Bool
deriving DecidableEq

/- RunQChemCustodian.run_task, lines 119 to 144: the variable block.  The
only statement of the block that can raise is the bracket access
self["max_cores"] on line 130, which raises KeyError when the optional
key max_cores is absent; every other option is read with self.get and a
default.  calc_loc and nboexe default to a non-strict environment lookup
of the keys calc_loc and nboexe (lines 133 and 134). -/
def init_variables (cfg : QCConfig) (env : FwEnv) : Except PyError Settings :=
  match cfg.max_cores with
  | none => Except.error (PyError.keyError "max_cores")
  | some mc =>
    Except.ok
      { qchem_cmd := env_chk (some cfg.qchem_cmd) env
        multimode := (env_chk cfg.multimode env).getD "openmp"
        input_file := cfg.input_file.getD "mol.qin"
        output_file := cfg.output_file.getD "mol.qout"
        max_cores := env_chk (some mc) env
        qclog_file := cfg.qclog_file.getD "mol.qclog"
        suffix := cfg.suffix.getD ""
        calc_loc := cfg.calc_loc <|> env "calc_loc"
        nboexe := cfg.nboexe <|> env "nboexe"
        save_scratch := cfg.save_scratch.getD false
        max_errors := cfg.max_errors.getD 5
        max_iterations := cfg.max_iterations.getD 10
        linked := cfg.linked.getD true
        backup := cfg.backup.getD true
        max_molecule_perturb_scale := cfg.max_molecule_perturb_scale.getD (3 / 10)
        job_type := cfg.job_type.getD "normal"
        gzipped_output := cfg.gzipped_output.getD true
        transition_state := cfg.transition_state.getD false
        freq_before_opt := cfg.freq_before_opt.getD false }

/- The arguments handed to the plain QCJob constructor (lines 155 to 169). -/
structure QCJobSpec where
  qchem_command : Option String
  max_cores : Option String
  multimode : String
  input_file : String
  output_file : String
  qclog_file : String
  suffix : String
  calc_loc : Option String
  nboexe : Option String
  save_scratch : Bool
  backup : Bool
deriving DecidableEq

/- The arguments handed to QCJob.opt_with_frequency_flattener (lines 172
to 203).  max_molecule_perturb_scale is passed only on the non-linked
branch, hence an Option. -/
structure FlattenerSpec where
  qchem_command : Option String
  multimode : String
  input_file : String
  output_file : String
  qclog_file : String
  max_iterations : Nat
  max_molecule_perturb_scale : Option ℚ
  linked : Bool
  freq_before_opt : Bool
  transition_state : Bool
  save_final_scratch : Bool
  max_cores : Option String
  calc_loc : Option String
  nboexe : Option String
deriving DecidableEq

inductive Jobs where
  | single (j : QCJobSpec)
  | flattener (f : FlattenerSpec)
deriving DecidableEq

/- A QChemErrorHandler as constructed on line 148. -/
structure QChemErrorHandler where
  input_file : String
  output_file : String
deriving DecidableEq

/- The external execution the task hands off: the Custodian constructed
and run on lines 211 to 215.  The task only reaches this value when no
exception was raised before. -/
structure CustodianRun where
  handlers : List QChemErrorHandler
  jobs : Jobs
  max_errors : Nat
  gzipped_output : Bool
deriving DecidableEq

/- Lines 154 to 206: job construction, selected by job_type.  An
unsupported job_type raises ValueError (line 206) before the Custodian
is constructed or run. -/
def construct_jobs (s : Settings) : Except PyError Jobs :=
  if s.job_type = "normal" then
    Except.ok (Jobs.single
      { qchem_command := s.qchem_cmd
        max_cores := s.max_cores
        multimode := s.multimode
        input_file := s.input_file
        output_file := s.output_file
        qclog_file := s.qclog_file
        suffix := s.suffix
        calc_loc := s.calc_loc
        nboexe := s.nboexe
        save_scratch := s.save_scratch
        backup := s.backup })
  else if s.job_type = "opt_with_frequency_flattener" then
    Except.ok (Jobs.flattener
      { qchem_command := s.qchem_cmd
        multimode := s.multimode
        input_file := s.input_file
        output_file := s.output_file
        qclog_file := s.qclog_file
        max_iterations := s.max_iterations
        max_molecule_perturb_scale :=
          if s.linked then none else some s.max_molecule_perturb_scale
        linked := s.linked
        freq_before_opt := s.freq_before_opt
        transition_state := s.transition_state
        save_final_scratch := s.save_scratch
        max_cores := s.max_cores
        calc_loc := s.calc_loc
        nboexe := s.nboexe })
  else
    Except.error (PyError.valueError ("Unsupported job type: " ++ s.job_type))

/- Line 209: the handler group is selected by bracket access into the
handler_groups dict of lines 146 to 151, so an unknown group name raises
KeyError. -/
def select_handlers (cfg : QCConfig) (s : Settings) :
    Except PyError (List QChemErrorHandler) :=
  if cfg.handler_group.getD "default" = "default" then
    Except.ok [{ input_file := s.input_file, output_file := s.output_file }]
  else if cfg.handler_group.getD "default" = "no_handler" then
    Except.ok []
  else
    Except.error (PyError.keyError (cfg.handler_group.getD "default"))

/- RunQChemCustodian.run_task (lines 116 to 215).  Result ok means the
task reached the external execution: the Custodian construction and run
with the given arguments.  Result error means an exception was raised
before any Custodian was constructed or run. -/
def RunQChemCustodian.run_task (cfg : QCConfig) (env : FwEnv) :
    Except PyError CustodianRun := do
  let s ← init_variables cfg env
  let jobs ← construct_jobs s
  let handlers ← select_handlers cfg s
  Except.ok
    { handlers := handlers
      jobs := jobs
      max_errors := s.max_errors
      gzipped_output := s.gzipped_output }

/- Discriminator: does the task end in a raised ValueError. -/
def is_value_error : Except PyError CustodianRun → Bool
  | Except.error (PyError.valueError _) => true
  | _ => false

/- A configuration record holding only the required key qchem_cmd. -/
def cfgBare : QCConfig :=
  { qchem_cmd := EnvVal.lit "qchem"
    multimode := none, input_file := none, output_file := none
    max_cores := none, qclog_file := none, suffix := none
    calc_loc := none, nboexe := none, save_scratch := none
    max_errors := none, job_type := none, handler_group := none
    gzipped_output := none, backup := none, linked := none
    max_iterations := none, max_molecule_perturb_scale := none
    freq_before_opt := none, transition_state := none }

/- cfgBare with an unsupported job_type and no max_cores key. -/
def cfgBadJob : QCConfig := { cfgBare with job_type := some "garbage" }

/- cfgBadJob plus a max_cores key. -/
def cfgBadJobCores : QCConfig := { cfgBadJob with max_cores := some (EnvVal.lit "32") }

/- cfgBare plus a max_cores key: every optional key other than max_cores
is omitted. -/
def cfgCores : QCConfig := { cfgBare with max_cores := some (EnvVal.lit "32") }

/- An empty environment store. -/
def envNone : FwEnv := fun _ => none

/- A parsed QChem input (pymatgen QCInput) as the checks of RunQChemFake
use it: a molecule (a list of sites, each a species and three Cartesian
coordinates) and the keyed option groups.  rem is always a dict; opt,
pcm and solvent may be None.  Dict values are compared for equality
only, so they are modelled as strings. -/
abbrev QCDict := List (String × String)

def dictKeys (d : QCDict) : List String := d.map Prod.fst

abbrev Coord3 := ℚ × ℚ × ℚ

structure QCInput where
  molecule : List (String × Coord3)
  rem : QCDict
  opt : Option QCDict
  pcm : Option QCDict
  solvent : Option QCDict
deriving DecidableEq

def QCInput.species (q : QCInput) : List String := q.molecule.map Prod.fst

def QCInput.cart_coords (q : QCInput) : List Coord3 := q.molecule.map Prod.snd

/- The tolerances of the assert_allclose call on lines 255 to 257:
atol equal to 1e-4 is passed explicitly, rtol is the numpy default 1e-7. -/
def np_atol : ℚ := 1 / 10000

def np_rtol : ℚ := 1 / 10000000

/- The elementwise numpy closeness criterion:
abs (actual - desired) <= atol + rtol * abs (desired). -/
def closeScalar (a d : ℚ) : Bool := decide (|a - d| ≤ np_atol + np_rtol * |d|)

def close3 (a d : Coord3) : Bool :=
  closeScalar a.1 d.1 && closeScalar a.2.1 d.2.1 && closeScalar a.2.2 d.2.2

/- numpy.testing.assert_allclose on the two coordinate arrays: the first
argument of the source call (the reference coordinates) is numpy actual,
the second (the working input coordinates) is numpy desired. -/
def allclose (actual desired : List Coord3) : Bool :=
  actual.length == desired.length &&
    (actual.zip desired).all fun p => close3 p.1 p.2

/- A pair of corresponding sites whose three coordinates agree within the
absolute tolerance 1e-4 (the first component is the reference site, the
second the working one). -/
def coordWithinAtol (p : Coord3 × Coord3) : Prop :=
  |p.1.1 - p.2.1| ≤ np_atol ∧ |p.1.2.1 - p.2.2.1| ≤ np_atol ∧ |p.1.2.2 - p.2.2.2| ≤ np_atol

/- A pair of corresponding sites with some coordinate outside the full
numpy criterion atol + rtol * abs (desired). -/
def coordBeyondTol (p : Coord3 × Coord3) : Prop :=
  np_atol + np_rtol * |p.2.1| < |p.1.1 - p.2.1| ∨
  np_atol + np_rtol * |p.2.2.1| < |p.1.2.1 - p.2.2.1| ∨
  np_atol + np_rtol * |p.2.2.2| < |p.1.2.2 - p.2.2.2|

/- One option-group loop of _verify_inputs (for key in ref_group:
compare user_group.get(key) with ref_group.get(key)): iterates over the
reference keys in order; userd none models a working-side group that is
None, on which the .get call raises AttributeError; the first key whose
values differ raises ValueError naming the key and the group. -/
def checkKeys (gname : String) :
    List String → QCDict → Option QCDict → Except PyError Unit
  | [], _, _ => Except.ok ()
  | k :: rest, refd, userd =>
    match userd with
    | none => Except.error PyError.attributeError
    | some ud =>
      if ud.lookup k ≠ refd.lookup k then
        Except.error (PyError.valueError (gname ++ " key " ++ k ++ " is inconsistent!"))
      else checkKeys gname rest refd userd

/- The guarded loop over an optional group (lines 261 to 272): skipped
entirely when the reference group is None. -/
def checkGroup (gname : String) (refg userg : Option QCDict) : Except PyError Unit :=
  match refg with
  | none => Except.ok ()
  | some rd => checkKeys gname (dictKeys rd) rd userg

/- The comparison part of RunQChemFake._verify_inputs (lines 254 to 272),
on the two parsed inputs: species equality (assert_equal), coordinate
closeness (assert_allclose), then the rem, opt, pcm and solvent loops in
order.  A failed numpy assertion raises AssertionError. -/
def verify_input_checks (ref user : QCInput) : Except PyError Unit :=
  if ref.species = user.species then
    if allclose ref.cart_coords user.cart_coords then
      match checkKeys "Rem" (dictKeys ref.rem) ref.rem (some user.rem) with
      | Except.error e => Except.error e
      | Except.ok _ =>
        match checkGroup "Opt" ref.opt user.opt with
        | Except.error e => Except.error e
        | Except.ok _ =>
          match checkGroup "PCM" ref.pcm user.pcm with
          | Except.error e => Except.error e
          | Except.ok _ => checkGroup "Solvent" ref.solvent user.solvent
    else Except.error PyError.assertionError
  else Except.error PyError.assertionError

/- Specification-side reading of the option-group comparison, written
from the amended wording: the failure for a group is determined by the
first reference key, in iteration order, whose working value differs or
is missing, and the raised ValueError names that key and its group; a
reference group that is present and non-empty while the working group is
None raises AttributeError instead. -/
def findMismatch (refd ud : QCDict) : Option String :=
  (dictKeys refd).find? fun k => decide (ud.lookup k ≠ refd.lookup k)

def groupSpec (gname : String) (refg userg : Option QCDict) : Except PyError Unit :=
  match refg, userg with
  | none, _ => Except.ok ()
  | some rd, none =>
    if dictKeys rd = [] then Except.ok () else Except.error PyError.attributeError
  | some rd, some ud =>
    match findMismatch rd ud with
    | some k =>
      Except.error (PyError.valueError (gname ++ " key " ++ k ++ " is inconsistent!"))
    | none => Except.ok ()

def verify_spec (ref user : QCInput) : Except PyError Unit :=
  if ref.species = user.species then
    if allclose ref.cart_coords user.cart_coords then
      match groupSpec "Rem" (some ref.rem) (some user.rem) with
      | Except.error e => Except.error e
      | Except.ok _ =>
        match groupSpec "Opt" ref.opt user.opt with
        | Except.error e => Except.error e
        | Except.ok _ =>
          match groupSpec "PCM" ref.pcm user.pcm with
          | Except.error e => Except.error e
          | Except.ok _ => groupSpec "Solvent" ref.solvent user.solvent
    else Except.error PyError.assertionError
  else Except.error PyError.assertionError

/- The filesystem as RunQChemFake touches it: a directory is a list of
named entries, each a regular file with data or a subdirectory (whose
contents the task never reads).  A real directory has unique names. -/
inductive FileData where
  | qcinput (q : QCInput)
  | raw (s : String)
deriving DecidableEq

inductive Entry where
  | file (d : FileData)
  | subdir
deriving DecidableEq

abbrev Directory := List (String × Entry)

def lookupEntry : Directory → String → Option Entry
  | [], _ => none
  | (m, e) :: rest, n => if m = n then some e else lookupEntry rest n

/- Removal of every entry of a given name (a real directory has at most
one). -/
def eraseEntry : Directory → String → Directory
  | [], _ => []
  | (m, e) :: rest, n =>
    if m = n then eraseEntry rest n else (m, e) :: eraseEntry rest n

/- An overwriting copy target: replaces the first entry of the name, or
appends the entry when the name is absent. -/
def insertEntry : Directory → String → Entry → Directory
  | [], n, e => [(n, e)]
  | (m, e0) :: rest, n, e =>
    if m = n then (n, e) :: rest else (m, e0) :: insertEntry rest n e

def entryNames (d : Directory) : List String := d.map Prod.fst

def subdirNames : Directory → List String
  | [] => []
  | (m, Entry.subdir) :: rest => m :: subdirNames rest
  | (_, Entry.file _) :: rest => subdirNames rest

/- QCInput.from_file: reads and parses the named entry; a missing entry,
a subdirectory or an unparseable file raises (modelled as one ioError). -/
def from_file (d : Directory) (n : String) : Except PyError QCInput :=
  match lookupEntry d n with
  | some (Entry.file (FileData.qcinput q)) => Except.ok q
  | _ => Except.error PyError.ioError

/- The configuration record of RunQChemFake: the required ref_dir (the
contents of the reference directory) and the optional input_file key. -/
structure FakeConfig where
  ref_dir : Directory
  input_file : Option String
deriving DecidableEq

/- RunQChemFake._verify_inputs (lines 247 to 274): parses the working
directory file named mol.qin (the fixed name on line 249), parses the
reference directory file named by the input_file option (default
mol.qin, line 248 and 252), and runs the comparisons. -/
def RunQChemFake.verify_inputs (cfg : FakeConfig) (cwd : Directory) :
    Except PyError Unit :=
  match from_file cwd "mol.qin" with
  | Except.error e => Except.error e
  | Except.ok user_qin =>
    match from_file cfg.ref_dir (cfg.input_file.getD "mol.qin") with
    | Except.error e => Except.error e
    | Except.ok ref_qin => verify_input_checks ref_qin user_qin

/- RunQChemFake._clear_inputs (lines 276 to 280): removes the working
directory file mol.qin when the path exists; os.remove on a directory of
that name raises IsADirectoryError.  Returns the working directory after
the step and the exception, if one was raised. -/
def clear_inputs (cwd : Directory) : Directory × Option PyError :=
  match lookupEntry cwd "mol.qin" with
  | none => (cwd, none)
  | some (Entry.file _) => (eraseEntry cwd "mol.qin", none)
  | some Entry.subdir => (cwd, some PyError.isADirectoryError)

/- RunQChemFake._generate_outputs (lines 282 to 288): walks the listing
of the reference directory, copies each regular file into the working
directory (overwriting), skips everything that is not a regular file.
shutil.copy onto a working-directory subdirectory of the same name
raises IsADirectoryError. -/
def generate_outputs : Directory → Directory → Directory × Option PyError
  | [], cwd => (cwd, none)
  | (n, Entry.file d) :: rest, cwd =>
    if lookupEntry cwd n = some Entry.subdir then (cwd, some PyError.isADirectoryError)
    else generate_outputs rest (insertEntry cwd n (Entry.file d))
  | (_, Entry.subdir) :: rest, cwd => generate_outputs rest cwd

/- RunQChemFake.run_task (lines 242 to 245): verify, then clear, then
generate, each step only when the one before raised nothing.  Returns
the final working directory and the exception, if any, that was raised
to the caller. -/
def RunQChemFake.run_task (cfg : FakeConfig) (cwd : Directory) :
    Directory × Option PyError :=
  match RunQChemFake.verify_inputs cfg cwd with
  | Except.error e => (cwd, some e)
  | Except.ok _ =>
    match clear_inputs cwd with
    | (c, some e) => (c, some e)
    | (c, none) => generate_outputs cfg.ref_dir c

/- RunQChemDirect.run_task (lines 42 to 48): what the task does, in
order: sets QCSCRATCH to the current directory, logs the command,
invokes it through the shell (the shell argument gives the return code
of any command), and logs the return code.  No statement can raise, so
the result is ok for every shell behaviour. -/
structure DirectTrace where
  qcscratch : String
  log_before : String
  return_code : Int
  log_after : String
deriving DecidableEq

def RunQChemDirect.run_task (cmd : String) (cwd : String) (shell : String → Int) :
    Except PyError DirectTrace :=
  Except.ok
    { qcscratch := cwd
      log_before := "Running command: " ++ cmd
      return_code := shell cmd
      log_after := "Command " ++ cmd ++ " finished running with return code: "
        ++ toString (shell cmd) }

/- The sufficient matching condition on one optional group: no condition
at all when the reference group is None; an empty reference group; or a
working group that agrees with the reference on every reference key.
Nothing constrains working-side keys outside the reference. -/
def optGroupOk : Option QCDict → Option QCDict → Prop
  | none, _ => True
  | some rd, none => dictKeys rd = []
  | some rd, some ud => ∀ k ∈ dictKeys rd, ud.lookup k = rd.lookup k

/- Concrete inputs used by the closed instances below. -/
def refRemTwo : QCInput := ⟨[], [("xx", "1"), ("yy", "2")], none, none, none⟩

def userRemTwo : QCInput := ⟨[], [("xx", "0"), ("yy", "0")], none, none, none⟩

def refOptOnly : QCInput := ⟨[], [], some [("k", "v")], none, none⟩

def userNoOpt : QCInput := ⟨[], [], none, none, none⟩

def refSmall : QCInput := ⟨[], [("a", "1")], none, none, none⟩

def userExtra : QCInput :=
  ⟨[], [("a", "1"), ("zz", "9")], some [("o", "1")], some [("p", "2")], some [("s", "3")]⟩

def cfgMismatch : FakeConfig :=
  ⟨[("mol.qin", Entry.file (FileData.qcinput refRemTwo))], none⟩

def cwdMismatch : Directory := [("mol.qin", Entry.file (FileData.qcinput userRemTwo))]

def cwdWithQin : Directory :=
  [("mol.qin", Entry.file (FileData.raw "x")), ("scratch", Entry.subdir)]

def cwdNoQin : Directory := [("other", Entry.file (FileData.raw "y"))]

def qinEmpty : QCInput := ⟨[], [], none, none, none⟩

def cfgRenamed : FakeConfig :=
  ⟨[("ref.in", Entry.file (FileData.qcinput qinEmpty))], some "ref.in"⟩

def cwdPlain : Directory := [("mol.qin", Entry.file (FileData.qcinput qinEmpty))]

def cwdPlainPlus : Directory :=
  [("mol.qin", Entry.file (FileData.qcinput qinEmpty)), ("junk", Entry.subdir)]

def rdRenamedPlus : Directory :=
  [("ref.in", Entry.file (FileData.qcinput qinEmpty)),
   ("extra", Entry.file (FileData.raw "e"))]

def refFar : QCInput := ⟨[("C", (1000 + 3 / 20000, 0, 0))], [], none, none, none⟩

def userFar : QCInput := ⟨[("C", (1000, 0, 0))], [], none, none, none⟩

def refSpec : QCInput := ⟨[("C", (0, 0, 0))], [], none, none, none⟩

def userSpec : QCInput := ⟨[("H", (0, 0, 0))], [], none, none, none⟩

def userNear : QCInput := ⟨[("C", (1 / 20000, 0, 0))], [], none, none, none⟩

def refWayOff : QCInput := ⟨[("C", (1001, 0, 0))], [], none, none, none⟩

def userWayOff : QCInput := ⟨[("C", (1000, 0, 0))], [], none, none, none⟩

def qinTiny : QCInput := ⟨[], [("method", "hf")], none, none, none⟩

def refDirQin : Directory :=
  [("mol.qin", Entry.file (FileData.qcinput qinTiny)),
   ("mol.qout", Entry.file (FileData.raw "out"))]

def cwdQin : Directory := [("mol.qin", Entry.file (FileData.qcinput qinTiny))]

def refDirAlt : Directory :=
  [("other.in", Entry.file (FileData.qcinput qinTiny)),
   ("mol.qout", Entry.file (FileData.raw "o")),
   ("scratch", Entry.subdir)]

def cfgAlt : FakeConfig := ⟨refDirAlt, some "other.in"⟩

/- Helper lemmas. -/

lemma checkKeys_ok (g : String) (ks : List String) (refd ud : QCDict)
    (h : ∀ k ∈ ks, ud.lookup k = refd.lookup k) :
    checkKeys g ks refd (some ud) = Except.ok () := by
  induction ks with
  | nil => rfl
  | cons k rest ih =>
    have hk := h k (List.mem_cons_self k rest)
    simp only [checkKeys, hk, ne_eq, not_true_eq_false, if_false, ite_false]
    exact ih fun x hx => h x (List.mem_cons_of_mem k hx)

lemma checkKeys_eq_find (g : String) (ks : List String) (refd ud : QCDict) :
    checkKeys g ks refd (some ud) =
      match ks.find? (fun k => decide (ud.lookup k ≠ refd.lookup k)) with
      | some k =>
        Except.error (PyError.valueError (g ++ " key " ++ k ++ " is inconsistent!"))
      | none => Except.ok () := by
  induction ks with
  | nil => rfl
  | cons k rest ih =>
    by_cases hk : ud.lookup k ≠ refd.lookup k
    · simp [checkKeys, hk, List.find?_cons_of_pos]
    · simp only [checkKeys, hk, ite_false, if_false]
      rw [List.find?_cons_of_neg]
      · exact ih
      · simpa using hk

lemma checkGroup_eq_groupSpec (g : String) (refg userg : Option QCDict) :
    checkGroup g refg userg = groupSpec g refg userg := by
  match refg, userg with
  | none, ug => rfl
  | some rd, none =>
    cases h : dictKeys rd with
    | nil => simp [checkGroup, groupSpec, h, checkKeys]
    | cons k rest => simp [checkGroup, groupSpec, h, checkKeys]
  | some rd, some ud =>
    simp only [checkGroup, groupSpec, findMismatch]
    exact checkKeys_eq_find g (dictKeys rd) rd ud

lemma checkGroup_ok_of (g : String) (rg ug : Option QCDict) (h : optGroupOk rg ug) :
    checkGroup g rg ug = Except.ok () := by
  match rg, ug with
  | none, ug => rfl
  | some rd, none =>
    simp only [optGroupOk] at h
    simp [checkGroup, h, checkKeys]
  | some rd, some ud =>
    exact checkKeys_ok g (dictKeys rd) rd ud h

lemma lookup_eraseEntry (d : Directory) (n : String) :
    lookupEntry (eraseEntry d n) n = none := by
  induction d with
  | nil => rfl
  | cons p rest ih =>
    by_cases h : p.1 = n
    · simp [eraseEntry, h, ih]
    · simp [eraseEntry, lookupEntry, h, ih]

lemma np_rtol_nonneg : 0 ≤ np_rtol := by norm_num [np_rtol]

lemma closeScalar_of_le {a d : ℚ} (h : |a - d| ≤ np_atol + np_rtol * |d|) :
    closeScalar a d = true :=
  decide_eq_true h

lemma closeScalar_of_within {a d : ℚ} (h : |a - d| ≤ np_atol) : closeScalar a d = true :=
  closeScalar_of_le
    (h.trans (le_add_of_nonneg_right (mul_nonneg np_rtol_nonneg (abs_nonneg d))))

lemma closeScalar_false_of_beyond {a d : ℚ} (h : np_atol + np_rtol * |d| < |a - d|) :
    closeScalar a d = false :=
  decide_eq_false (not_le.mpr h)

lemma close3_of_within {p : Coord3 × Coord3} (h : coordWithinAtol p) :
    close3 p.1 p.2 = true := by
  obtain ⟨h1, h2, h3⟩ := h
  simp [close3, closeScalar_of_within h1, closeScalar_of_within h2,
    closeScalar_of_within h3]

lemma close3_false_of_beyond {p : Coord3 × Coord3} (h : coordBeyondTol p) :
    close3 p.1 p.2 = false := by
  rcases h with h | h | h <;> simp [close3, closeScalar_false_of_beyond h]

lemma allclose_of_within (as ds : List Coord3) (hlen : as.length = ds.length)
    (h : ∀ p ∈ as.zip ds, close3 p.1 p.2 = true) : allclose as ds = true := by
  simp only [allclose, hlen, beq_self_eq_true, Bool.true_and, List.all_eq_true]
  exact h

lemma allclose_false_of (as ds : List Coord3)
    (h : ∃ p ∈ as.zip ds, close3 p.1 p.2 = false) : allclose as ds = false := by
  obtain ⟨p, hp, hf⟩ := h
  cases hall : (as.zip ds).all fun q => close3 q.1 q.2 with
  | false => simp [allclose, hall]
  | true => exact absurd (List.all_eq_true.mp hall p hp) (by simp [hf])

lemma mem_insertEntry_names (d : Directory) (n : String) (e : Entry) (m : String)
    (h : m ∈ entryNames (insertEntry d n e)) : m = n ∨ m ∈ entryNames d := by
  induction d with
  | nil => simpa [insertEntry, entryNames] using h
  | cons p rest ih =>
    by_cases hp : p.1 = n
    · simp only [insertEntry, hp, if_true, ite_true, entryNames, List.map_cons,
        List.mem_cons] at h ⊢
      rcases h with h | h
      · exact Or.inl h
      · exact Or.inr (Or.inr h)
    · simp only [insertEntry, hp, if_false, ite_false, entryNames, List.map_cons,
        List.mem_cons] at h ⊢
      rcases h with h | h
      · exact Or.inr (Or.inl h)
      · rcases ih h with h2 | h2
        · exact Or.inl h2
        · exact Or.inr (Or.inr h2)

lemma subdirNames_insert_file (d : Directory) (n : String) (x : FileData)
    (h : lookupEntry d n ≠ some Entry.subdir) :
    subdirNames (insertEntry d n (Entry.file x)) = subdirNames d := by
  induction d with
  | nil => rfl
  | cons p rest ih =>
    obtain ⟨m0, e0⟩ := p
    by_cases hp : m0 = n
    · subst hp
      have he : e0 ≠ Entry.subdir := by
        intro he
        subst he
        exact h (by simp [lookupEntry])
      match e0, he with
      | Entry.file y, _ => simp [insertEntry, subdirNames]
    · have hl : lookupEntry rest n ≠ some Entry.subdir := by
        simpa [lookupEntry, hp] using h
      cases e0 with
      | file y => simp [insertEntry, hp, subdirNames, ih hl]
      | subdir => simp [insertEntry, hp, subdirNames, ih hl]

lemma generate_subdirNames (refd : Directory) :
    ∀ cwd, subdirNames (generate_outputs refd cwd).1 = subdirNames cwd := by
  induction refd with
  | nil => intro cwd; rfl
  | cons p rest ih =>
    intro cwd
    obtain ⟨n, e⟩ := p
    cases e with
    | subdir => simpa [generate_outputs] using ih cwd
    | file x =>
      by_cases hl : lookupEntry cwd n = some Entry.subdir
      · simp [generate_outputs, hl]
      · simp only [generate_outputs, hl, if_false, ite_false]
        rw [ih (insertEntry cwd n (Entry.file x))]
        exact subdirNames_insert_file cwd n x hl

lemma generate_names (refd : Directory) :
    ∀ cwd m, m ∈ entryNames (generate_outputs refd cwd).1 →
      m ∈ entryNames cwd ∨ ∃ x, (m, Entry.file x) ∈ refd := by
  induction refd with
  | nil => intro cwd m h; exact Or.inl h
  | cons p rest ih =>
    intro cwd m h
    obtain ⟨n, e⟩ := p
    cases e with
    | subdir =>
      rcases ih cwd m (by simpa [generate_outputs] using h) with h1 | ⟨x, hx⟩
      · exact Or.inl h1
      · exact Or.inr ⟨x, List.mem_cons_of_mem _ hx⟩
    | file d =>
      by_cases hl : lookupEntry cwd n = some Entry.subdir
      · simp only [generate_outputs, hl, if_true, ite_true] at h
        exact Or.inl h
      · simp only [generate_outputs, hl, if_false, ite_false] at h
        rcases ih _ m h with h1 | ⟨x, hx⟩
        · rcases mem_insertEntry_names cwd n (Entry.file d) m h1 with h2 | h2
          · subst h2
            exact Or.inr ⟨d, List.mem_cons_self _ _⟩
          · exact Or.inl h2
        · exact Or.inr ⟨x, List.mem_cons_of_mem _ hx⟩

lemma not_mem_erase_names (d : Directory) (n : String) :
    n ∉ entryNames (eraseEntry d n) := by
  induction d with
  | nil => simp [eraseEntry, entryNames]
  | cons p rest ih =>
    by_cases hp : p.1 = n
    · simpa [eraseEntry, hp] using ih
    · simp only [eraseEntry, hp, if_false, ite_false, entryNames, List.map_cons,
        List.mem_cons, not_or]
      exact ⟨fun he => hp he.symm, ih⟩

lemma from_file_ok_lookup (d : Directory) (n : String) (q : QCInput)
    (h : from_file d n = Except.ok q) :
    lookupEntry d n = some (Entry.file (FileData.qcinput q)) := by
  unfold from_file at h
  match hl : lookupEntry d n with
  | some (Entry.file (FileData.qcinput q0)) =>
    rw [hl] at h
    simp only [Except.ok.injEq] at h
    rw [h]
  | some (Entry.file (FileData.raw s)) => rw [hl] at h; exact absurd h (by simp)
  | some Entry.subdir => rw [hl] at h; exact absurd h (by simp)
  | none => rw [hl] at h; exact absurd h (by simp)

lemma verify_ok_lookup (cfg : FakeConfig) (cwd : Directory)
    (h : RunQChemFake.verify_inputs cfg cwd = Except.ok ()) :
    ∃ u, lookupEntry cwd "mol.qin" = some (Entry.file (FileData.qcinput u)) := by
  unfold RunQChemFake.verify_inputs at h
  match hf : from_file cwd "mol.qin" with
  | Except.ok u => exact ⟨u, from_file_ok_lookup cwd "mol.qin" u hf⟩
  | Except.error e => rw [hf] at h; exact absurd h (by simp)

/- Claim theorems. -/

/-- C1 (amended): for every configuration record that contains the
max_cores key and whose job_type value is neither normal nor
opt_with_frequency_flattener, RunQChemCustodian.run_task raises
ValueError with the message naming the job type, and the error result
means no Custodian was constructed or run (an ok result is the only way
the task reaches the Custodian).  The amendment adds the max_cores
premise: a record without it raises KeyError first, see the
counterexample. -/
theorem custodian_unsupported_job_type (cfg : QCConfig) (env : FwEnv) (mc : EnvVal)
    (jt : String)
    (hmc : cfg.max_cores = some mc) (hjt : cfg.job_type = some jt)
    (h1 : jt ≠ "normal") (h2 : jt ≠ "opt_with_frequency_flattener") :
    RunQChemCustodian.run_task cfg env =
      Except.error (PyError.valueError ("Unsupported job type: " ++ jt)) := by
  simp only [RunQChemCustodian.run_task, init_variables, hmc, bind, Except.bind,
    construct_jobs, hjt, Option.getD_some, if_neg h1, if_neg h2]

/-- Witness for C1: a concrete record with max_cores present and job_type
garbage ends in the ValueError naming the job type. -/
theorem custodian_unsupported_job_type_w :
    RunQChemCustodian.run_task cfgBadJobCores envNone =
      Except.error (PyError.valueError ("Unsupported job type: " ++ "garbage")) :=
  custodian_unsupported_job_type cfgBadJobCores envNone (EnvVal.lit "32") "garbage"
    rfl rfl (by decide) (by decide)

/-- Counterexample to C1 as stated: a record with an unsupported job_type
but no max_cores key raises KeyError (from the bracket access
self[max_cores] on line 130), not the claimed ValueError. -/
theorem custodian_unsupported_job_type_cex :
    RunQChemCustodian.run_task cfgBadJob envNone =
      Except.error (PyError.keyError "max_cores") ∧
    is_value_error (RunQChemCustodian.run_task cfgBadJob envNone) = false :=
  ⟨rfl, rfl⟩

/-- C5 (amended): for every configuration record that provides max_cores
and omits the other optional keys, the variable block applies the
documented defaults verbatim: multimode openmp, input_file mol.qin,
output_file mol.qout, max_errors 5, job_type normal, max_iterations 10,
max_molecule_perturb_scale 0.3, save_scratch False, linked True, backup
True, gzipped_output True.  The amendment adds the max_cores premise: a
record omitting it raises KeyError before any default takes effect, see
the counterexample. -/
theorem custodian_defaults (cfg : QCConfig) (env : FwEnv) (mc : EnvVal)
    (hmc : cfg.max_cores = some mc)
    (h1 : cfg.multimode = none) (h2 : cfg.input_file = none) (h3 : cfg.output_file = none)
    (h4 : cfg.max_errors = none) (h5 : cfg.job_type = none) (h6 : cfg.max_iterations = none)
    (h7 : cfg.max_molecule_perturb_scale = none) (h8 : cfg.save_scratch = none)
    (h9 : cfg.linked = none) (h10 : cfg.backup = none) (h11 : cfg.gzipped_output = none) :
    init_variables cfg env = Except.ok
      { qchem_cmd := env_chk (some cfg.qchem_cmd) env
        multimode := "openmp"
        input_file := "mol.qin"
        output_file := "mol.qout"
        max_cores := env_chk (some mc) env
        qclog_file := cfg.qclog_file.getD "mol.qclog"
        suffix := cfg.suffix.getD ""
        calc_loc := cfg.calc_loc <|> env "calc_loc"
        nboexe := cfg.nboexe <|> env "nboexe"
        save_scratch := false
        max_errors := 5
        max_iterations := 10
        linked := true
        backup := true
        max_molecule_perturb_scale := 3 / 10
        job_type := "normal"
        gzipped_output := true
        transition_state := cfg.transition_state.getD false
        freq_before_opt := cfg.freq_before_opt.getD false } := by
  simp only [init_variables, hmc, h1, h2, h3, h4, h5, h6, h7, h8, h9, h10, h11,
    env_chk, Option.getD_none, Option.getD_some]

/-- Witness for C5: the concrete record with only qchem_cmd and max_cores
resolves to the documented defaults. -/
theorem custodian_defaults_w :
    init_variables cfgCores envNone = Except.ok
      { qchem_cmd := env_chk (some cfgCores.qchem_cmd) envNone
        multimode := "openmp"
        input_file := "mol.qin"
        output_file := "mol.qout"
        max_cores := env_chk (some (EnvVal.lit "32")) envNone
        qclog_file := cfgCores.qclog_file.getD "mol.qclog"
        suffix := cfgCores.suffix.getD ""
        calc_loc := cfgCores.calc_loc <|> envNone "calc_loc"
        nboexe := cfgCores.nboexe <|> envNone "nboexe"
        save_scratch := false
        max_errors := 5
        max_iterations := 10
        linked := true
        backup := true
        max_molecule_perturb_scale := 3 / 10
        job_type := "normal"
        gzipped_output := true
        transition_state := cfgCores.transition_state.getD false
        freq_before_opt := cfgCores.freq_before_opt.getD false } :=
  custodian_defaults cfgCores envNone (EnvVal.lit "32") rfl rfl rfl rfl rfl rfl rfl
    rfl rfl rfl rfl rfl

/-- Counterexample to C5 as stated: the record omitting every optional
key (including max_cores) raises KeyError, so the run aborts and no
defaults are applied. -/
theorem custodian_defaults_cex :
    init_variables cfgBare envNone = Except.error (PyError.keyError "max_cores") ∧
    RunQChemCustodian.run_task cfgBare envNone =
      Except.error (PyError.keyError "max_cores") :=
  ⟨rfl, rfl⟩

/-- C7: RunQChemDirect.run_task never raises on a non-zero exit code of
the invoked command: for every shell behaviour (hence every return
code) the task completes normally, with the return code only recorded
in the log line. -/
theorem direct_never_raises (cmd cwd : String) (shell : String → Int) :
    ∃ t : DirectTrace, RunQChemDirect.run_task cmd cwd shell = Except.ok t ∧
      t.return_code = shell cmd ∧
      t.log_after = "Command " ++ cmd ++ " finished running with return code: "
        ++ toString (shell cmd) :=
  ⟨_, rfl, rfl, rfl⟩

/-- C3 (amended): on two parsed inputs, once the species and coordinate
checks pass, the option-group comparison equals the first-mismatch
specification: for each group in order (rem, opt, pcm, solvent), the
first reference key in iteration order whose working value is mismatched
or absent determines the failure, a ValueError naming that key and its
group; a reference group that is present and non-empty while the working
group is entirely absent raises AttributeError instead.  Later
mismatched keys are not named. -/
theorem fake_verify_first_mismatch (ref user : QCInput) :
    verify_input_checks ref user = verify_spec ref user := by
  have hrem : checkKeys "Rem" (dictKeys ref.rem) ref.rem (some user.rem)
      = groupSpec "Rem" (some ref.rem) (some user.rem) :=
    checkGroup_eq_groupSpec "Rem" (some ref.rem) (some user.rem)
  simp only [verify_input_checks, verify_spec, hrem, checkGroup_eq_groupSpec]

/-- Witness for C3: a concrete evaluation of both sides on a reference
with an opt group and a working input without one. -/
theorem fake_verify_first_mismatch_w :
    verify_input_checks refOptOnly userNoOpt = verify_spec refOptOnly userNoOpt ∧
    verify_spec refOptOnly userNoOpt = Except.error PyError.attributeError :=
  ⟨fake_verify_first_mismatch refOptOnly userNoOpt, rfl⟩

/-- Counterexample to C3 as stated: with two mismatched rem keys xx and
yy, the raised ValueError names only xx, not yy; and a reference opt key
k that is absent because the whole working opt group is None raises
AttributeError, not a ValueError naming k. -/
theorem fake_key_naming_cex :
    ("yy" ∈ dictKeys refRemTwo.rem ∧
      userRemTwo.rem.lookup "yy" ≠ refRemTwo.rem.lookup "yy" ∧
      verify_input_checks refRemTwo userRemTwo =
        Except.error (PyError.valueError ("Rem key " ++ "xx" ++ " is inconsistent!")) ∧
      ("Rem key " ++ "xx" ++ " is inconsistent!") ≠
        ("Rem key " ++ "yy" ++ " is inconsistent!")) ∧
    (dictKeys (refOptOnly.opt.getD []) = ["k"] ∧
      verify_input_checks refOptOnly userNoOpt = Except.error PyError.attributeError) :=
  ⟨⟨by decide, by decide, rfl, by decide⟩, ⟨rfl, rfl⟩⟩

/-- C10: the option-group comparison is asymmetric.  When the species
and coordinate checks pass, matching on the reference keys alone makes
verification succeed: working rem keys outside the reference are never
compared, and a whole working group is unconstrained whenever the
reference group is None (optGroupOk places no condition in that case). -/
theorem fake_verify_reference_keyed (ref user : QCInput)
    (hs : ref.species = user.species)
    (hc : allclose ref.cart_coords user.cart_coords = true)
    (hrem : ∀ k ∈ dictKeys ref.rem, user.rem.lookup k = ref.rem.lookup k)
    (hopt : optGroupOk ref.opt user.opt)
    (hpcm : optGroupOk ref.pcm user.pcm)
    (hsol : optGroupOk ref.solvent user.solvent) :
    verify_input_checks ref user = Except.ok () := by
  have h1 := checkKeys_ok "Rem" (dictKeys ref.rem) ref.rem user.rem hrem
  simp [verify_input_checks, hs, hc, h1, checkGroup_ok_of "Opt" _ _ hopt,
    checkGroup_ok_of "PCM" _ _ hpcm, checkGroup_ok_of "Solvent" _ _ hsol]

/-- Witness for C10: the working input carries an extra rem key zz and
whole opt, pcm and solvent groups while the reference has none of them,
and verification still succeeds. -/
theorem fake_verify_reference_keyed_w :
    verify_input_checks refSmall userExtra = Except.ok () :=
  fake_verify_reference_keyed refSmall userExtra rfl rfl (by decide)
    trivial trivial trivial

/-- C6: when verification fails with any error, the whole task aborts
with that error raised to the caller and the working directory is
returned unchanged: the clear step deleted nothing and the generate step
copied nothing. -/
theorem fake_abort_on_verify_failure (cfg : FakeConfig) (cwd : Directory) (e : PyError)
    (h : RunQChemFake.verify_inputs cfg cwd = Except.error e) :
    RunQChemFake.run_task cfg cwd = (cwd, some e) := by
  simp [RunQChemFake.run_task, h]

/-- Witness for C6: a concrete run whose rem key xx mismatches aborts
with the ValueError and leaves the working directory as it was. -/
theorem fake_abort_on_verify_failure_w :
    RunQChemFake.run_task cfgMismatch cwdMismatch =
      (cwdMismatch,
        some (PyError.valueError ("Rem key " ++ "xx" ++ " is inconsistent!"))) :=
  fake_abort_on_verify_failure cfgMismatch cwdMismatch
    (PyError.valueError ("Rem key " ++ "xx" ++ " is inconsistent!")) rfl

/-- C8: the clear step deletes the working input file when it exists, is
a no-op (and raises nothing) when it is absent, and running it twice
leaves the same state and outcome as running it once. -/
theorem fake_clear_idempotent (cwd : Directory) :
    (∀ d : FileData, lookupEntry cwd "mol.qin" = some (Entry.file d) →
      clear_inputs cwd = (eraseEntry cwd "mol.qin", none)) ∧
    (lookupEntry cwd "mol.qin" = none → clear_inputs cwd = (cwd, none)) ∧
    clear_inputs (clear_inputs cwd).1 = clear_inputs cwd := by
  refine ⟨fun d h => by simp [clear_inputs, h], fun h => by simp [clear_inputs, h], ?_⟩
  match h : lookupEntry cwd "mol.qin" with
  | none => simp [clear_inputs, h]
  | some (Entry.file d) => simp [clear_inputs, h, lookup_eraseEntry]
  | some Entry.subdir => simp [clear_inputs, h]

/-- Witness for C8: concrete working directories with and without
mol.qin. -/
theorem fake_clear_idempotent_w :
    clear_inputs cwdWithQin = (eraseEntry cwdWithQin "mol.qin", none) ∧
    clear_inputs cwdNoQin = (cwdNoQin, none) ∧
    clear_inputs (clear_inputs cwdWithQin).1 = clear_inputs cwdWithQin :=
  ⟨(fake_clear_idempotent cwdWithQin).1 (FileData.raw "x") rfl,
   (fake_clear_idempotent cwdNoQin).2.1 rfl,
   (fake_clear_idempotent cwdWithQin).2.2⟩

/-- C9: for every value of the input_file option, verification reads the
working directory only at the fixed name mol.qin and the reference
directory only at the name input_file selects (default mol.qin) - two
runs agreeing on those two entries verify identically - and the clear
step deletes the fixed name mol.qin. -/
theorem fake_fixed_filenames (cfg : FakeConfig) (cwd cwd2 rd2 : Directory)
    (hc : lookupEntry cwd "mol.qin" = lookupEntry cwd2 "mol.qin")
    (hr : lookupEntry cfg.ref_dir (cfg.input_file.getD "mol.qin")
        = lookupEntry rd2 (cfg.input_file.getD "mol.qin")) :
    RunQChemFake.verify_inputs cfg cwd
      = RunQChemFake.verify_inputs ⟨rd2, cfg.input_file⟩ cwd2 ∧
    (∀ d : FileData, lookupEntry cwd "mol.qin" = some (Entry.file d) →
      (clear_inputs cwd).1 = eraseEntry cwd "mol.qin") := by
  constructor
  · simp only [RunQChemFake.verify_inputs, from_file, hc, hr]
  · intro d h
    simp [clear_inputs, h]

/-- Witness for C9: with input_file set to ref.in, runs over directories
that agree only on the mol.qin and ref.in entries verify identically,
and clear removes mol.qin. -/
theorem fake_fixed_filenames_w :
    (RunQChemFake.verify_inputs cfgRenamed cwdPlain
      = RunQChemFake.verify_inputs ⟨rdRenamedPlus, cfgRenamed.input_file⟩ cwdPlainPlus ∧
    (∀ d : FileData, lookupEntry cwdPlain "mol.qin" = some (Entry.file d) →
      (clear_inputs cwdPlain).1 = eraseEntry cwdPlain "mol.qin")) :=
  fake_fixed_filenames cfgRenamed cwdPlain cwdPlainPlus rdRenamedPlus rfl rfl

/-- C2 (amended): on two parsed inputs, species sequences that differ in
any position always fail the verification; coordinates all within 1e-4
of the corresponding reference coordinate always pass the coordinate
check; and a coordinate pair outside the full numpy criterion
atol + rtol times the working magnitude (atol 1e-4, default rtol 1e-7)
always fails.  The amendment replaces the claimed failure bound 1e-4 by
the numpy criterion: a difference slightly above 1e-4 can pass when the
relative term covers it, see the counterexample. -/
theorem fake_verify_tolerance (ref user : QCInput) :
    (ref.species ≠ user.species →
      verify_input_checks ref user = Except.error PyError.assertionError) ∧
    (ref.cart_coords.length = user.cart_coords.length →
      (∀ p ∈ ref.cart_coords.zip user.cart_coords, coordWithinAtol p) →
      allclose ref.cart_coords user.cart_coords = true) ∧
    ((∃ p ∈ ref.cart_coords.zip user.cart_coords, coordBeyondTol p) →
      verify_input_checks ref user = Except.error PyError.assertionError) := by
  refine ⟨fun h => by simp [verify_input_checks, h],
    fun hlen hin =>
      allclose_of_within _ _ hlen fun p hp => close3_of_within (hin p hp),
    fun hex => ?_⟩
  have hfalse : allclose ref.cart_coords user.cart_coords = false := by
    obtain ⟨p, hp, hb⟩ := hex
    exact allclose_false_of _ _ ⟨p, hp, close3_false_of_beyond hb⟩
  by_cases hs : ref.species = user.species
  · simp [verify_input_checks, hs, hfalse]
  · simp [verify_input_checks, hs]

/-- Witness for C2: concrete runs for the three parts: differing
species fail; a 5e-5 offset passes the coordinate check; a full 1.0
offset at magnitude 1000 fails. -/
theorem fake_verify_tolerance_w :
    verify_input_checks refSpec userSpec = Except.error PyError.assertionError ∧
    allclose refSpec.cart_coords userNear.cart_coords = true ∧
    verify_input_checks refWayOff userWayOff = Except.error PyError.assertionError := by
  refine ⟨(fake_verify_tolerance refSpec userSpec).1 (by decide),
    (fake_verify_tolerance refSpec userNear).2.1 rfl ?_,
    (fake_verify_tolerance refWayOff userWayOff).2.2
      ⟨((1001, 0, 0), (1000, 0, 0)), ?_, ?_⟩⟩
  · intro p hp
    simp only [refSpec, userNear, QCInput.cart_coords, List.map_cons, List.map_nil,
      List.zip_cons_cons, List.zip_nil_right, List.mem_singleton] at hp
    subst hp
    refine ⟨abs_le.mpr ⟨?_, ?_⟩, abs_le.mpr ⟨?_, ?_⟩, abs_le.mpr ⟨?_, ?_⟩⟩ <;>
      norm_num [np_atol]
  · simp [refWayOff, userWayOff, QCInput.cart_coords]
  · left
    rw [np_atol, np_rtol]
    rw [show ((1001 : ℚ) - 1000) = 1 by ring]
    rw [abs_of_nonneg (by norm_num : (0 : ℚ) ≤ (1000 : ℚ)),
      abs_of_nonneg (by norm_num : (0 : ℚ) ≤ (1 : ℚ))]
    norm_num

/-- Counterexample to C2 as stated: the single coordinate of refFar
differs from the working value 1000 by 1.5e-4, more than 1e-4, yet
verification passes, because the numpy criterion allows
1e-4 + 1e-7 * 1000 = 2e-4 at that magnitude. -/
theorem fake_verify_tolerance_cex :
    refFar.cart_coords = [(1000 + 3 / 20000, 0, 0)] ∧
    userFar.cart_coords = [(1000, 0, 0)] ∧
    |((1000 : ℚ) + 3 / 20000) - 1000| > np_atol ∧
    verify_input_checks refFar userFar = Except.ok () := by
  refine ⟨rfl, rfl, ?_, ?_⟩
  · rw [np_atol]
    rw [show ((1000 : ℚ) + 3 / 20000) - 1000 = 3 / 20000 by ring]
    rw [abs_of_nonneg (by norm_num : (0 : ℚ) ≤ 3 / 20000)]
    norm_num
  · have h1 : closeScalar (1000 + 3 / 20000) 1000 = true := by
      apply closeScalar_of_le
      rw [np_atol, np_rtol]
      rw [show ((1000 : ℚ) + 3 / 20000) - 1000 = 3 / 20000 by ring]
      rw [abs_of_nonneg (by norm_num : (0 : ℚ) ≤ 3 / 20000),
        abs_of_nonneg (by norm_num : (0 : ℚ) ≤ (1000 : ℚ))]
      norm_num
    have h0 : closeScalar 0 0 = true := by
      apply closeScalar_of_within
      rw [np_atol]
      norm_num
    have hs : refFar.species = userFar.species := rfl
    have hall : allclose refFar.cart_coords userFar.cart_coords = true := by
      simp [allclose, refFar, userFar, QCInput.cart_coords, close3, h1, h0]
    show verify_input_checks refFar userFar = Except.ok ()
    unfold verify_input_checks
    rw [if_pos hs, if_pos hall]
    rfl

/-- C4 (amended): the generate step copies only regular files of the
reference directory, never subdirectories (the set of working
subdirectories is unchanged and every new name comes from a reference
regular file); and after a completed task the working mol.qin is absent
exactly when the reference directory holds no regular file of that
name.  The amendment drops the unconditional final deletion: generate
re-creates mol.qin whenever the reference directory contains one, see
the counterexample. -/
theorem fake_generate_regular_files (cfg : FakeConfig) (cwd : Directory) :
    subdirNames (generate_outputs cfg.ref_dir cwd).1 = subdirNames cwd ∧
    (∀ m, m ∈ entryNames (generate_outputs cfg.ref_dir cwd).1 →
      m ∈ entryNames cwd ∨ ∃ x, (m, Entry.file x) ∈ cfg.ref_dir) ∧
    (∀ out, RunQChemFake.run_task cfg cwd = (out, none) →
      (∀ x, ("mol.qin", Entry.file x) ∉ cfg.ref_dir) →
      "mol.qin" ∉ entryNames out) := by
  refine ⟨generate_subdirNames cfg.ref_dir cwd, generate_names cfg.ref_dir cwd, ?_⟩
  intro out hrun hnoref hmem
  unfold RunQChemFake.run_task at hrun
  match hv : RunQChemFake.verify_inputs cfg cwd with
  | Except.error e => rw [hv] at hrun; exact absurd hrun (by simp)
  | Except.ok u =>
    obtain ⟨w, hw⟩ := verify_ok_lookup cfg cwd (by rw [hv])
    have hclear : clear_inputs cwd = (eraseEntry cwd "mol.qin", none) := by
      simp [clear_inputs, hw]
    rw [hv, hclear] at hrun
    simp only [] at hrun
    have hout : out = (generate_outputs cfg.ref_dir (eraseEntry cwd "mol.qin")).1 := by
      rw [hrun]
    rw [hout] at hmem
    rcases generate_names cfg.ref_dir (eraseEntry cwd "mol.qin") "mol.qin" hmem with
      h1 | ⟨x, hx⟩
    · exact not_mem_erase_names cwd "mol.qin" h1
    · exact hnoref x hx

/-- Witness for C4: a completed run over a reference directory holding
other.in, mol.qout and a subdirectory: the subdirectory is not copied,
the new name mol.qout comes from a reference regular file, and mol.qin
stays absent because the reference has no regular file of that name. -/
theorem fake_generate_regular_files_w :
    subdirNames (generate_outputs cfgAlt.ref_dir cwdQin).1 = subdirNames cwdQin ∧
    ("mol.qout" ∈ entryNames cwdQin ∨
      ∃ x, ("mol.qout", Entry.file x) ∈ cfgAlt.ref_dir) ∧
    "mol.qin" ∉ entryNames
      [("other.in", Entry.file (FileData.qcinput qinTiny)),
       ("mol.qout", Entry.file (FileData.raw "o"))] := by
  refine ⟨(fake_generate_regular_files cfgAlt cwdQin).1,
    (fake_generate_regular_files cfgAlt cwdQin).2.1 "mol.qout" (by decide),
    (fake_generate_regular_files cfgAlt cwdQin).2.2
      [("other.in", Entry.file (FileData.qcinput qinTiny)),
       ("mol.qout", Entry.file (FileData.raw "o"))] rfl ?_⟩
  intro x hx
  simp only [cfgAlt, refDirAlt, List.mem_cons, List.mem_singleton] at hx
  rcases hx with h | h | h | h <;> simp_all

/-- Counterexample to C4 as stated: with the standard layout (the
reference directory holds mol.qin and mol.qout), the completed task
leaves mol.qin present in the working directory: the generate step
copied the reference mol.qin back after the clear step deleted the
working one. -/
theorem fake_generate_cex :
    RunQChemFake.run_task ⟨refDirQin, none⟩ cwdQin =
      ([("mol.qin", Entry.file (FileData.qcinput qinTiny)),
        ("mol.qout", Entry.file (FileData.raw "out"))], none) ∧
    "mol.qin" ∈ entryNames (RunQChemFake.run_task ⟨refDirQin, none⟩ cwdQin).1 :=
  ⟨rfl, by decide⟩

end AtomateRunCalc
